import Mathlib

/-!
Verification of the resource-update handler
(src/handlers/resources/update_resource.py) against its specification.

The handler is embedded shallowly: JSON values parsed by the body parser
are an inductive type with Python truthiness, membership and indexing
semantics; the DynamoDB table is an association list from id to item
(an attribute list), with injectable read/write failures standing for
ClientError; the wall clock is a string parameter standing for
datetime.utcnow().isoformat() + Z.  The handler returns the API-Gateway
response together with the post-call store and the number of read and
write operations issued.
-/

namespace UpdateResource

/-- JSON values as produced by json.loads (numbers restricted to integers,
which is all this handler ever inspects). -/
inductive Json where
  | null : Json
  | bool (b : Bool) : Json
  | num (n : Int) : Json
  | str (s : String) : Json
  | arr (elems : List Json) : Json
  | obj (fields : List (String × Json)) : Json

/-- Association-list lookup, the model of Python dict lookup (keys unique). -/
def alookup {α : Type} : List (String × α) → String → Option α
  | [], _ => none
  | (k, v) :: rest, k2 => if k = k2 then some v else alookup rest k2

/-- Association-list update: overwrite the key in place, or append. -/
def aset {α : Type} : List (String × α) → String → α → List (String × α)
  | [], k, v => [(k, v)]
  | (k1, v1) :: rest, k, v =>
      if k1 = k then (k, v) :: rest else (k1, v1) :: aset rest k v

/-- Python truthiness of a parsed JSON value, as used by `if not body`. -/
def Json.truthy : Json → Bool
  | .null => false
  | .bool b => b
  | .num n => n != 0
  | .str s => !(s == "")
  | .arr xs => !xs.isEmpty
  | .obj kvs => !kvs.isEmpty

/-- Python exceptions that can arise inside the handler try block. -/
inductive PyErr where
  | clientError (code msg : String) : PyErr
  | typeError (msg : String) : PyErr
  | keyError (key : String) : PyErr

/-- A single apostrophe, used in interpolated error messages. -/
def sq : String := String.singleton (Char.ofNat 39)

/-- Does the list of characters needle occur as a contiguous run in hay
(Python substring membership for strings)? -/
def hasSub : List Char → List Char → Bool
  | hay, needle =>
    needle.isPrefixOf hay ||
      (match hay with
       | [] => false
       | _ :: t => hasSub t needle)

/-- Python membership test k in body on a parsed JSON value: key lookup on
dicts, element equality on lists, substring on strings, TypeError on the
non-iterable scalars. -/
def pyIn (k : String) : Json → Except PyErr Bool
  | .obj kvs => .ok (alookup kvs k).isSome
  | .arr xs => .ok (xs.any (fun j => match j with | .str s => s == k | _ => false))
  | .str s => .ok (hasSub s.data k.data)
  | .num _ => .error (.typeError ("argument of type " ++ sq ++ "int" ++ sq ++ " is not iterable"))
  | .bool _ => .error (.typeError ("argument of type " ++ sq ++ "bool" ++ sq ++ " is not iterable"))
  | .null => .error (.typeError ("argument of type " ++ sq ++ "NoneType" ++ sq ++ " is not iterable"))

/-- Python subscript body[k] on a parsed JSON value. -/
def Json.getItem (k : String) : Json → Except PyErr Json
  | .obj kvs =>
      match alookup kvs k with
      | some v => .ok v
      | none => .error (.keyError k)
  | .arr _ => .error (.typeError "list indices must be integers or slices, not str")
  | .str _ => .error (.typeError "string indices must be integers")
  | .num _ => .error (.typeError ("" ++ sq ++ "int" ++ sq ++ " object is not subscriptable"))
  | .bool _ => .error (.typeError ("" ++ sq ++ "bool" ++ sq ++ " object is not subscriptable"))
  | .null => .error (.typeError ("" ++ sq ++ "NoneType" ++ sq ++ " object is not subscriptable"))

/-- Lowercase hexadecimal digit. -/
def hexDigit (n : Nat) : Char :=
  if n < 10 then Char.ofNat (48 + n) else Char.ofNat (87 + n % 16)

/-- A backslash-u escape of a 16-bit code unit, as emitted by json.dumps. -/
def uEscape (n : Nat) : String :=
  "\\u" ++ String.mk [hexDigit (n / 4096 % 16), hexDigit (n / 256 % 16),
                      hexDigit (n / 16 % 16), hexDigit (n % 16)]

/-- Escape a single character the way json.dumps (ensure_ascii default) does. -/
def escChar (c : Char) : String :=
  if c = Char.ofNat 34 then "\\\""
  else if c = Char.ofNat 92 then "\\\\"
  else if c = Char.ofNat 10 then "\\n"
  else if c = Char.ofNat 9 then "\\t"
  else if c = Char.ofNat 13 then "\\r"
  else if c = Char.ofNat 8 then "\\b"
  else if c = Char.ofNat 12 then "\\f"
  else if c.toNat < 32 then uEscape c.toNat
  else if c.toNat < 128 then String.singleton c
  else if c.toNat < 65536 then uEscape c.toNat
  else uEscape (55296 + (c.toNat - 65536) / 1024) ++ uEscape (56320 + (c.toNat - 65536) % 1024)

/-- Escape a string the way json.dumps does. -/
def escString (s : String) : String := String.join (s.data.map escChar)

mutual
/-- Serialization of a JSON value with the defaults of json.dumps. -/
def jsonDumps : Json → String
  | .null => "null"
  | .bool true => "true"
  | .bool false => "false"
  | .num n => toString n
  | .str s => "\"" ++ escString s ++ "\""
  | .arr xs => "[" ++ dumpsElems xs ++ "]"
  | .obj kvs => "\x7b" ++ dumpsFields kvs ++ "\x7d"

/-- Comma-separated serialization of array elements. -/
def dumpsElems : List Json → String
  | [] => ""
  | [x] => jsonDumps x
  | x :: y :: rest => jsonDumps x ++ ", " ++ dumpsElems (y :: rest)

/-- Comma-separated serialization of object fields. -/
def dumpsFields : List (String × Json) → String
  | [] => ""
  | [(k, v)] => "\"" ++ escString k ++ "\": " ++ jsonDumps v
  | (k, v) :: p :: rest =>
      "\"" ++ escString k ++ "\": " ++ jsonDumps v ++ ", " ++ dumpsFields (p :: rest)
end

/-- A stored item: DynamoDB attribute names mapped to values. -/
def Record : Type := List (String × Json)

/-- The DynamoDB table state, with injectable ClientError failures for the
read and the write operation (code and message of the error). -/
structure Store where
  items : List (String × Record)
  readFail : Option (String × String)
  writeFail : Option (String × String)

/-- The normalized API Gateway event: optional pathParameters map and
optional raw body string, as accessed via event.get. -/
structure Event where
  pathParameters : Option (List (String × String))
  body : Option String

/-- An API Gateway compatible response. -/
structure Response where
  statusCode : Nat
  headers : List (String × String)
  body : String

/-- Count of store operations issued during one invocation. -/
structure Ops where
  reads : Nat
  writes : Nat

/-- The response for a 400 validation failure. -/
def resp400 (msg : String) : Response :=
  ⟨400, [("Content-Type", "application/json")],
    jsonDumps (.obj [("error", .str msg)])⟩

/-- The response for a missing record. -/
def resp404 (rid : String) : Response :=
  ⟨404, [("Content-Type", "application/json")],
    jsonDumps (.obj [("error",
      .str ("Resource with id " ++ sq ++ rid ++ sq ++ " not found"))])⟩

/-- The success response carrying the full post-update item. -/
def resp200 (item : Record) : Response :=
  ⟨200, [("Content-Type", "application/json"), ("Access-Control-Allow-Origin", "*")],
    jsonDumps (.obj item)⟩

/-- The response for a ClientError from the store. -/
def resp500Store (msg : String) : Response :=
  ⟨500, [("Content-Type", "application/json")],
    jsonDumps (.obj [("error", .str "Failed to update resource"), ("details", .str msg)])⟩

/-- The response for any other unexpected exception. -/
def resp500Other (msg : String) : Response :=
  ⟨500, [("Content-Type", "application/json")],
    jsonDumps (.obj [("error", .str "Internal server error"), ("details", .str msg)])⟩

/-- The str(e) rendering of an exception reaching the generic except branch. -/
def pyErrStr : PyErr → String
  | .clientError _ msg => msg
  | .typeError msg => msg
  | .keyError key => sq ++ key ++ sq

/-- The update list built from the request body: always updatedAt, plus
title and description when the corresponding key test succeeds (a membership
test or subscript on a non-dict body can raise). Mirrors the dynamic
construction of UpdateExpression and ExpressionAttributeValues. -/
def buildUpdates (body : Json) (now : String) : Except PyErr (List (String × Json)) :=
  let base : List (String × Json) := [("updatedAt", Json.str now)]
  match pyIn "title" body with
  | .error e => .error e
  | .ok hasTitle =>
    match (if hasTitle
           then (Json.getItem "title" body).map (fun v => base ++ [("title", v)])
           else .ok base) with
    | .error e => .error e
    | .ok upds1 =>
      match pyIn "description" body with
      | .error e => .error e
      | .ok hasDesc =>
        if hasDesc
        then (Json.getItem "description" body).map (fun v => upds1 ++ [("description", v)])
        else .ok upds1

/-- Merge a list of attribute updates into an item, the semantics of a
DynamoDB SET update expression. -/
def applyUpdates (item : Record) (upds : List (String × Json)) : Record :=
  upds.foldl (fun acc p => aset acc p.1 p.2) item

/-- The body of the try block: get_item, the 404 check, the dynamic update
construction, and update_item with ReturnValues ALL_NEW. Returns the
normal-or-raised outcome, the post-call store, and the operation counts. -/
def runTry (now : String) (st : Store) (rid : String) (body : Json) :
    Except PyErr Response × Store × Ops :=
  match st.readFail with
  | some cm => (.error (.clientError cm.1 cm.2), st, ⟨1, 0⟩)
  | none =>
    match alookup st.items rid with
    | none => (.ok (resp404 rid), st, ⟨1, 0⟩)
    | some item =>
      match buildUpdates body now with
      | .error e => (.error e, st, ⟨1, 0⟩)
      | .ok upds =>
        match st.writeFail with
        | some cm => (.error (.clientError cm.1 cm.2), st, ⟨1, 1⟩)
        | none =>
          let newItem := applyUpdates item upds
          (.ok (resp200 newItem),
           { st with items := aset st.items rid newItem }, ⟨1, 1⟩)

/-- The handler of update_resource.py: resourceId extraction and truthiness
check, body parse (json.loads is the parse parameter; a parse result of none
is a JSONDecodeError), empty-body check, then the try block with its two
except clauses (ClientError first, then the catch-all). -/
def handler (parse : String → Option Json) (now : String) (st : Store)
    (event : Event) : Response × Store × Ops :=
  match alookup (event.pathParameters.getD []) "resourceId" with
  | none => (resp400 "Missing resourceId in path", st, ⟨0, 0⟩)
  | some rid =>
    if rid = "" then (resp400 "Missing resourceId in path", st, ⟨0, 0⟩)
    else
      match parse (event.body.getD "\x7b\x7d") with
      | none => (resp400 "Invalid JSON in request body", st, ⟨0, 0⟩)
      | some body =>
        if Json.truthy body = false
        then (resp400 "Request body cannot be empty", st, ⟨0, 0⟩)
        else
          match runTry now st rid body with
          | (.ok r, st2, ops) => (r, st2, ops)
          | (.error (.clientError _ msg), st2, ops) => (resp500Store msg, st2, ops)
          | (.error e, st2, ops) => (resp500Other (pyErrStr e), st2, ops)

end UpdateResource

namespace UpdateResource

lemma alookup_aset_self {α : Type} (l : List (String × α)) (k : String) (v : α) :
    alookup (aset l k v) k = some v := by
  induction l with
  | nil => simp [aset, alookup]
  | cons p rest ih =>
    obtain ⟨pk, pv⟩ := p
    by_cases h : pk = k
    · simp [aset, alookup, h]
    · simp [aset, alookup, h, ih]

lemma alookup_aset_ne {α : Type} (l : List (String × α)) (k k2 : String) (v : α)
    (h : k2 ≠ k) : alookup (aset l k v) k2 = alookup l k2 := by
  have h2 : ¬(k = k2) := fun e => h (Eq.symm e)
  induction l with
  | nil => simp [aset, alookup, h2]
  | cons p rest ih =>
    obtain ⟨pk, pv⟩ := p
    by_cases h1 : pk = k
    · subst h1
      simp [aset, alookup, h2]
    · simp [aset, alookup, h1, ih]

/-- The title part of the update list for an object body. -/
def titleUpd (kvs : List (String × Json)) : List (String × Json) :=
  match alookup kvs "title" with
  | some v => [("title", v)]
  | none => []

/-- The description part of the update list for an object body. -/
def descUpd (kvs : List (String × Json)) : List (String × Json) :=
  match alookup kvs "description" with
  | some v => [("description", v)]
  | none => []

lemma buildUpdates_obj (kvs : List (String × Json)) (now : String) :
    buildUpdates (Json.obj kvs) now =
      .ok (("updatedAt", Json.str now) :: (titleUpd kvs ++ descUpd kvs)) := by
  rcases h1 : alookup kvs "title" with _ | v1 <;>
    rcases h2 : alookup kvs "description" with _ | v2 <;>
      simp [buildUpdates, pyIn, Json.getItem, titleUpd, descUpd, h1, h2, Except.map]

/-- Field-level description of the item written back on the success path
for an object body. -/
lemma alookup_applyUpdates_obj (item : Record) (kvs : List (String × Json))
    (now : String) :
    alookup (applyUpdates item (("updatedAt", Json.str now) :: (titleUpd kvs ++ descUpd kvs)))
        "updatedAt" = some (Json.str now) ∧
    alookup (applyUpdates item (("updatedAt", Json.str now) :: (titleUpd kvs ++ descUpd kvs)))
        "title" =
      (match alookup kvs "title" with
       | some v => some v
       | none => alookup item "title") ∧
    alookup (applyUpdates item (("updatedAt", Json.str now) :: (titleUpd kvs ++ descUpd kvs)))
        "description" =
      (match alookup kvs "description" with
       | some v => some v
       | none => alookup item "description") ∧
    (∀ f, f ≠ "updatedAt" → f ≠ "title" → f ≠ "description" →
      alookup (applyUpdates item (("updatedAt", Json.str now) :: (titleUpd kvs ++ descUpd kvs)))
          f = alookup item f) := by
  rcases h1 : alookup kvs "title" with _ | v1 <;>
    rcases h2 : alookup kvs "description" with _ | v2 <;>
      simp only [titleUpd, descUpd, h1, h2, applyUpdates, List.foldl, List.nil_append,
        List.cons_append, List.append_nil] <;>
      refine ⟨?_, ?_, ?_, ?_⟩ <;>
      try intro f hf1 hf2 hf3
  all_goals
    simp_all [alookup_aset_self, alookup_aset_ne]

end UpdateResource

namespace UpdateResource

/-- The full update list for an object body. -/
def updList (kvs : List (String × Json)) (now : String) : List (String × Json) :=
  ("updatedAt", Json.str now) :: (titleUpd kvs ++ descUpd kvs)

lemma handler_resourceId_missing (parse : String → Option Json) (now : String)
    (st : Store) (event : Event)
    (h : alookup (event.pathParameters.getD []) "resourceId" = none) :
    handler parse now st event = (resp400 "Missing resourceId in path", st, ⟨0, 0⟩) := by
  unfold handler
  rw [h]

lemma handler_resourceId_empty (parse : String → Option Json) (now : String)
    (st : Store) (event : Event)
    (h : alookup (event.pathParameters.getD []) "resourceId" = some "") :
    handler parse now st event = (resp400 "Missing resourceId in path", st, ⟨0, 0⟩) := by
  unfold handler
  rw [h]
  simp

lemma handler_bad_json (parse : String → Option Json) (now : String)
    (st : Store) (event : Event) (rid : String)
    (hrid : alookup (event.pathParameters.getD []) "resourceId" = some rid)
    (hne : rid ≠ "")
    (hp : parse (event.body.getD "\x7b\x7d") = none) :
    handler parse now st event = (resp400 "Invalid JSON in request body", st, ⟨0, 0⟩) := by
  unfold handler
  rw [hrid]
  simp [hne, hp]

lemma handler_empty_body (parse : String → Option Json) (now : String)
    (st : Store) (event : Event) (rid : String) (body : Json)
    (hrid : alookup (event.pathParameters.getD []) "resourceId" = some rid)
    (hne : rid ≠ "")
    (hp : parse (event.body.getD "\x7b\x7d") = some body)
    (ht : Json.truthy body = false) :
    handler parse now st event = (resp400 "Request body cannot be empty", st, ⟨0, 0⟩) := by
  unfold handler
  rw [hrid]
  simp [hne, hp, ht]

lemma handler_main (parse : String → Option Json) (now : String)
    (st : Store) (event : Event) (rid : String) (body : Json)
    (hrid : alookup (event.pathParameters.getD []) "resourceId" = some rid)
    (hne : rid ≠ "")
    (hp : parse (event.body.getD "\x7b\x7d") = some body)
    (ht : Json.truthy body = true) :
    handler parse now st event =
      (match runTry now st rid body with
       | (.ok r, st2, ops) => (r, st2, ops)
       | (.error (.clientError _ msg), st2, ops) => (resp500Store msg, st2, ops)
       | (.error e, st2, ops) => (resp500Other (pyErrStr e), st2, ops)) := by
  unfold handler
  rw [hrid]
  simp [hne, hp, ht]

lemma runTry_notfound (now : String) (st : Store) (rid : String) (body : Json)
    (hread : st.readFail = none)
    (hmiss : alookup st.items rid = none) :
    runTry now st rid body = (.ok (resp404 rid), st, ⟨1, 0⟩) := by
  unfold runTry
  rw [hread, hmiss]

lemma runTry_success (now : String) (st : Store) (rid : String)
    (kvs : List (String × Json)) (item : Record)
    (hread : st.readFail = none)
    (hitem : alookup st.items rid = some item)
    (hwrite : st.writeFail = none) :
    runTry now st rid (Json.obj kvs) =
      (.ok (resp200 (applyUpdates item (updList kvs now))),
       { st with items := aset st.items rid (applyUpdates item (updList kvs now)) },
       ⟨1, 1⟩) := by
  unfold runTry
  rw [hread, hitem, buildUpdates_obj, hwrite]
  rfl

lemma runTry_writefail (now : String) (st : Store) (rid : String)
    (kvs : List (String × Json)) (item : Record) (cm : String × String)
    (hread : st.readFail = none)
    (hitem : alookup st.items rid = some item)
    (hwrite : st.writeFail = some cm) :
    runTry now st rid (Json.obj kvs) =
      (.error (.clientError cm.1 cm.2), st, ⟨1, 1⟩) := by
  unfold runTry
  rw [hread, hitem, buildUpdates_obj, hwrite]

lemma handler_success (parse : String → Option Json) (now : String)
    (st : Store) (event : Event) (rid : String) (kvs : List (String × Json))
    (item : Record)
    (hrid : alookup (event.pathParameters.getD []) "resourceId" = some rid)
    (hne : rid ≠ "")
    (hp : parse (event.body.getD "\x7b\x7d") = some (Json.obj kvs))
    (hkvs : kvs ≠ [])
    (hread : st.readFail = none)
    (hitem : alookup st.items rid = some item)
    (hwrite : st.writeFail = none) :
    handler parse now st event =
      (resp200 (applyUpdates item (updList kvs now)),
       { st with items := aset st.items rid (applyUpdates item (updList kvs now)) },
       ⟨1, 1⟩) := by
  have ht : Json.truthy (Json.obj kvs) = true := by
    simp [Json.truthy, hkvs]
  rw [handler_main parse now st event rid (Json.obj kvs) hrid hne hp ht,
      runTry_success now st rid kvs item hread hitem hwrite]

end UpdateResource

namespace UpdateResource

/-- Wall-clock order of ISO-8601 UTC timestamp strings: these compare
lexicographically, here by character code. -/
def charListLt : List Char → List Char → Bool
  | [], [] => false
  | [], _ :: _ => true
  | _ :: _, [] => false
  | a :: as, b :: bs =>
      if a.toNat < b.toNat then true
      else if a.toNat = b.toNat then charListLt as bs else false

/-- Wall-clock order on timestamp strings. -/
def strWallLt (a b : String) : Bool := charListLt a.data b.data

/-- C3: validation runs in order and short-circuits: a missing or empty
resourceId gives 400 with no store operation regardless of the body; with a
good resourceId, an unparsable body gives 400 with no store operation; with
a good resourceId, a body parsing to the empty object gives 400 with no
store operation. -/
theorem C3_validation_short_circuit :
    (∀ (parse : String → Option Json) (now : String) (st : Store) (event : Event),
      (alookup (event.pathParameters.getD []) "resourceId" = none ∨
       alookup (event.pathParameters.getD []) "resourceId" = some "") →
      (handler parse now st event).1.statusCode = 400 ∧
      (handler parse now st event).2.2.reads = 0 ∧
      (handler parse now st event).2.2.writes = 0 ∧
      (handler parse now st event).2.1 = st) ∧
    (∀ (parse : String → Option Json) (now : String) (st : Store) (event : Event)
       (rid : String),
      alookup (event.pathParameters.getD []) "resourceId" = some rid →
      rid ≠ "" →
      parse (event.body.getD "\x7b\x7d") = none →
      (handler parse now st event).1.statusCode = 400 ∧
      (handler parse now st event).2.2.reads = 0 ∧
      (handler parse now st event).2.2.writes = 0 ∧
      (handler parse now st event).2.1 = st) ∧
    (∀ (parse : String → Option Json) (now : String) (st : Store) (event : Event)
       (rid : String),
      alookup (event.pathParameters.getD []) "resourceId" = some rid →
      rid ≠ "" →
      parse (event.body.getD "\x7b\x7d") = some (Json.obj []) →
      (handler parse now st event).1.statusCode = 400 ∧
      (handler parse now st event).2.2.reads = 0 ∧
      (handler parse now st event).2.2.writes = 0 ∧
      (handler parse now st event).2.1 = st) := by
  refine ⟨?_, ?_, ?_⟩
  · intro parse now st event h
    rcases h with h | h
    · rw [handler_resourceId_missing parse now st event h]
      exact ⟨rfl, rfl, rfl, rfl⟩
    · rw [handler_resourceId_empty parse now st event h]
      exact ⟨rfl, rfl, rfl, rfl⟩
  · intro parse now st event rid hrid hne hp
    rw [handler_bad_json parse now st event rid hrid hne hp]
    exact ⟨rfl, rfl, rfl, rfl⟩
  · intro parse now st event rid hrid hne hp
    rw [handler_empty_body parse now st event rid (Json.obj []) hrid hne hp rfl]
    exact ⟨rfl, rfl, rfl, rfl⟩

/-- C3 witness at concrete inputs: one instance per conjunct. -/
theorem C3_witness :
    ((handler (fun _ => none) "T" ⟨[], none, none⟩ ⟨none, none⟩).1.statusCode = 400 ∧
     (handler (fun _ => none) "T" ⟨[], none, none⟩ ⟨none, none⟩).2.2.reads = 0 ∧
     (handler (fun _ => none) "T" ⟨[], none, none⟩ ⟨none, none⟩).2.2.writes = 0 ∧
     (handler (fun _ => none) "T" ⟨[], none, none⟩ ⟨none, none⟩).2.1 = ⟨[], none, none⟩) ∧
    ((handler (fun _ => none) "T" ⟨[], none, none⟩
        ⟨some [("resourceId", "r1")], some "bad"⟩).1.statusCode = 400 ∧
     (handler (fun _ => none) "T" ⟨[], none, none⟩
        ⟨some [("resourceId", "r1")], some "bad"⟩).2.2.reads = 0 ∧
     (handler (fun _ => none) "T" ⟨[], none, none⟩
        ⟨some [("resourceId", "r1")], some "bad"⟩).2.2.writes = 0 ∧
     (handler (fun _ => none) "T" ⟨[], none, none⟩
        ⟨some [("resourceId", "r1")], some "bad"⟩).2.1 = ⟨[], none, none⟩) ∧
    ((handler (fun _ => some (Json.obj [])) "T" ⟨[], none, none⟩
        ⟨some [("resourceId", "r1")], none⟩).1.statusCode = 400 ∧
     (handler (fun _ => some (Json.obj [])) "T" ⟨[], none, none⟩
        ⟨some [("resourceId", "r1")], none⟩).2.2.reads = 0 ∧
     (handler (fun _ => some (Json.obj [])) "T" ⟨[], none, none⟩
        ⟨some [("resourceId", "r1")], none⟩).2.2.writes = 0 ∧
     (handler (fun _ => some (Json.obj [])) "T" ⟨[], none, none⟩
        ⟨some [("resourceId", "r1")], none⟩).2.1 = ⟨[], none, none⟩) :=
  ⟨C3_validation_short_circuit.1 (fun _ => none) "T" ⟨[], none, none⟩ ⟨none, none⟩
      (Or.inl rfl),
   C3_validation_short_circuit.2.1 (fun _ => none) "T" ⟨[], none, none⟩
      ⟨some [("resourceId", "r1")], some "bad"⟩ "r1" rfl (by decide) rfl,
   C3_validation_short_circuit.2.2 (fun _ => some (Json.obj [])) "T" ⟨[], none, none⟩
      ⟨some [("resourceId", "r1")], none⟩ "r1" rfl (by decide) rfl⟩

/-- C4: with validation passed and the id absent from the store, the
handler answers 404 with exactly the interpolated not-found body, after one
read and no write, leaving the store unchanged. -/
theorem C4_not_found (parse : String → Option Json) (now : String)
    (st : Store) (event : Event) (rid : String) (body : Json)
    (hrid : alookup (event.pathParameters.getD []) "resourceId" = some rid)
    (hne : rid ≠ "")
    (hp : parse (event.body.getD "\x7b\x7d") = some body)
    (ht : Json.truthy body = true)
    (hread : st.readFail = none)
    (hmiss : alookup st.items rid = none) :
    (handler parse now st event).1.statusCode = 404 ∧
    (handler parse now st event).1.body =
      jsonDumps (Json.obj [("error",
        Json.str ("Resource with id " ++ sq ++ rid ++ sq ++ " not found"))]) ∧
    (handler parse now st event).2.2.reads = 1 ∧
    (handler parse now st event).2.2.writes = 0 ∧
    (handler parse now st event).2.1 = st := by
  rw [handler_main parse now st event rid body hrid hne hp ht,
      runTry_notfound now st rid body hread hmiss]
  exact ⟨rfl, rfl, rfl, rfl, rfl⟩

/-- C4 witness: a store without r2 gives the literal 404 body. -/
theorem C4_witness :
    (handler (fun _ => some (Json.obj [("title", Json.str "X")])) "T"
        ⟨[], none, none⟩ ⟨some [("resourceId", "r2")], some "b"⟩).1.statusCode = 404 ∧
    (handler (fun _ => some (Json.obj [("title", Json.str "X")])) "T"
        ⟨[], none, none⟩ ⟨some [("resourceId", "r2")], some "b"⟩).1.body =
      jsonDumps (Json.obj [("error",
        Json.str ("Resource with id " ++ sq ++ "r2" ++ sq ++ " not found"))]) ∧
    (handler (fun _ => some (Json.obj [("title", Json.str "X")])) "T"
        ⟨[], none, none⟩ ⟨some [("resourceId", "r2")], some "b"⟩).2.2.reads = 1 ∧
    (handler (fun _ => some (Json.obj [("title", Json.str "X")])) "T"
        ⟨[], none, none⟩ ⟨some [("resourceId", "r2")], some "b"⟩).2.2.writes = 0 ∧
    (handler (fun _ => some (Json.obj [("title", Json.str "X")])) "T"
        ⟨[], none, none⟩ ⟨some [("resourceId", "r2")], some "b"⟩).2.1 = ⟨[], none, none⟩ :=
  C4_not_found (fun _ => some (Json.obj [("title", Json.str "X")])) "T"
    ⟨[], none, none⟩ ⟨some [("resourceId", "r2")], some "b"⟩ "r2"
    (Json.obj [("title", Json.str "X")]) rfl (by decide) rfl rfl rfl rfl

/-- C5: when the read finds the record but the write raises a store error,
the handler answers 500 with the failed-to-update body carrying the store
error message, and in particular not 200. -/
theorem C5_write_failure (parse : String → Option Json) (now : String)
    (st : Store) (event : Event) (rid : String) (kvs : List (String × Json))
    (item : Record) (cm : String × String)
    (hrid : alookup (event.pathParameters.getD []) "resourceId" = some rid)
    (hne : rid ≠ "")
    (hp : parse (event.body.getD "\x7b\x7d") = some (Json.obj kvs))
    (hkvs : kvs ≠ [])
    (hread : st.readFail = none)
    (hitem : alookup st.items rid = some item)
    (hwrite : st.writeFail = some cm) :
    (handler parse now st event).1.statusCode = 500 ∧
    (handler parse now st event).1.body =
      jsonDumps (Json.obj [("error", Json.str "Failed to update resource"),
                           ("details", Json.str cm.2)]) ∧
    (handler parse now st event).1.statusCode ≠ 200 := by
  have ht : Json.truthy (Json.obj kvs) = true := by
    simp [Json.truthy, hkvs]
  rw [handler_main parse now st event rid (Json.obj kvs) hrid hne hp ht,
      runTry_writefail now st rid kvs item cm hread hitem hwrite]
  exact ⟨rfl, rfl, by simp [resp500Store]⟩

/-- C5 witness: an injected write failure on an existing record. -/
theorem C5_witness :
    (handler (fun _ => some (Json.obj [("title", Json.str "X")])) "T"
        ⟨[("r1", [("id", Json.str "r1")])], none, some ("Err", "boom")⟩
        ⟨some [("resourceId", "r1")], some "b"⟩).1.statusCode = 500 ∧
    (handler (fun _ => some (Json.obj [("title", Json.str "X")])) "T"
        ⟨[("r1", [("id", Json.str "r1")])], none, some ("Err", "boom")⟩
        ⟨some [("resourceId", "r1")], some "b"⟩).1.body =
      jsonDumps (Json.obj [("error", Json.str "Failed to update resource"),
                           ("details", Json.str ("Err", "boom").2)]) ∧
    (handler (fun _ => some (Json.obj [("title", Json.str "X")])) "T"
        ⟨[("r1", [("id", Json.str "r1")])], none, some ("Err", "boom")⟩
        ⟨some [("resourceId", "r1")], some "b"⟩).1.statusCode ≠ 200 :=
  C5_write_failure (fun _ => some (Json.obj [("title", Json.str "X")])) "T"
    ⟨[("r1", [("id", Json.str "r1")])], none, some ("Err", "boom")⟩
    ⟨some [("resourceId", "r1")], some "b"⟩ "r1" [("title", Json.str "X")]
    [("id", Json.str "r1")] ("Err", "boom")
    rfl (by decide) rfl (by simp) rfl rfl rfl

end UpdateResource

namespace UpdateResource

lemma alookup_applyUpdates_updList (item : Record) (kvs : List (String × Json))
    (now : String) :
    alookup (applyUpdates item (updList kvs now)) "updatedAt" = some (Json.str now) ∧
    alookup (applyUpdates item (updList kvs now)) "title" =
      (match alookup kvs "title" with
       | some v => some v
       | none => alookup item "title") ∧
    alookup (applyUpdates item (updList kvs now)) "description" =
      (match alookup kvs "description" with
       | some v => some v
       | none => alookup item "description") ∧
    (∀ f, f ≠ "updatedAt" → f ≠ "title" → f ≠ "description" →
      alookup (applyUpdates item (updList kvs now)) f = alookup item f) := by
  unfold updList
  exact alookup_applyUpdates_obj item kvs now

/-- A parse function for a body updating the title. -/
def exParse : String → Option Json :=
  fun s => if s = "bodyTB" then some (Json.obj [("title", Json.str "B")]) else none

/-- A stored item with all recognized fields plus an extra one. -/
def exItem : Record :=
  [("id", Json.str "r1"), ("title", Json.str "A"), ("description", Json.str "d"),
   ("owner", Json.str "o9"),
   ("updatedAt", Json.str "2026-01-01T00:00:00.000000Z")]

/-- A store holding exItem under r1, with no injected failures. -/
def exStore : Store := ⟨[("r1", exItem)], none, none⟩

/-- An event naming r1 and carrying the title-update body. -/
def exEvent : Event := ⟨some [("resourceId", "r1")], some "bodyTB"⟩

/-- A clock reading later than the stored updatedAt. -/
def exNow : String := "2026-01-02T00:00:00.000000Z"

/-- C1: on the success path (validation passed, object body, record found,
write succeeds) the handler answers 200, the response body is the
serialization of the post-update record, that record keeps every field not
named in the update, takes title and description from the body exactly when
those keys are present, and carries updatedAt equal to the handler's fresh
clock reading, strictly later in wall-clock order than the prior value
whenever the clock has advanced past it. -/
theorem C1_success_full_record (parse : String → Option Json) (now : String)
    (st : Store) (event : Event) (rid : String) (kvs : List (String × Json))
    (item : Record)
    (hrid : alookup (event.pathParameters.getD []) "resourceId" = some rid)
    (hne : rid ≠ "")
    (hp : parse (event.body.getD "\x7b\x7d") = some (Json.obj kvs))
    (hkvs : kvs ≠ [])
    (hread : st.readFail = none)
    (hitem : alookup st.items rid = some item)
    (hwrite : st.writeFail = none)
    (hclk : ∀ t, alookup item "updatedAt" = some (Json.str t) → strWallLt t now = true) :
    ∃ newItem : Record,
      (handler parse now st event).1 = resp200 newItem ∧
      (handler parse now st event).1.statusCode = 200 ∧
      (handler parse now st event).1.body = jsonDumps (Json.obj newItem) ∧
      alookup newItem "updatedAt" = some (Json.str now) ∧
      (∀ t, alookup item "updatedAt" = some (Json.str t) → strWallLt t now = true) ∧
      (∀ v, alookup kvs "title" = some v → alookup newItem "title" = some v) ∧
      (alookup kvs "title" = none → alookup newItem "title" = alookup item "title") ∧
      (∀ v, alookup kvs "description" = some v → alookup newItem "description" = some v) ∧
      (alookup kvs "description" = none →
        alookup newItem "description" = alookup item "description") ∧
      (∀ f, f ≠ "updatedAt" → f ≠ "title" → f ≠ "description" →
        alookup newItem f = alookup item f) := by
  obtain ⟨hu, htl, hd, hframe⟩ := alookup_applyUpdates_updList item kvs now
  have hs := handler_success parse now st event rid kvs item hrid hne hp hkvs hread hitem hwrite
  refine ⟨applyUpdates item (updList kvs now),
          by rw [hs], by rw [hs]; rfl, by rw [hs]; rfl, hu, hclk, ?_, ?_, ?_, ?_, hframe⟩
  · intro v hv
    rw [htl, hv]
  · intro hv
    rw [htl, hv]
  · intro v hv
    rw [hd, hv]
  · intro hv
    rw [hd, hv]

/-- C1 witness: updating the title of the stored r1 record. -/
theorem C1_witness :
    ∃ newItem : Record,
      (handler exParse exNow exStore exEvent).1 = resp200 newItem ∧
      (handler exParse exNow exStore exEvent).1.statusCode = 200 ∧
      (handler exParse exNow exStore exEvent).1.body = jsonDumps (Json.obj newItem) ∧
      alookup newItem "updatedAt" = some (Json.str exNow) ∧
      (∀ t, alookup exItem "updatedAt" = some (Json.str t) → strWallLt t exNow = true) ∧
      (∀ v, alookup [("title", Json.str "B")] "title" = some v →
        alookup newItem "title" = some v) ∧
      (alookup [("title", Json.str "B")] "title" = none →
        alookup newItem "title" = alookup exItem "title") ∧
      (∀ v, alookup [("title", Json.str "B")] "description" = some v →
        alookup newItem "description" = some v) ∧
      (alookup [("title", Json.str "B")] "description" = none →
        alookup newItem "description" = alookup exItem "description") ∧
      (∀ f, f ≠ "updatedAt" → f ≠ "title" → f ≠ "description" →
        alookup newItem f = alookup exItem f) :=
  C1_success_full_record exParse exNow exStore exEvent "r1" [("title", Json.str "B")]
    exItem rfl (by decide) rfl (by simp) rfl rfl rfl
    (by
      intro t ht
      simp [exItem, alookup] at ht
      subst ht
      decide)

/-- Names of the attributes set by the write for an object body. -/
def updNames (kvs : List (String × Json)) : List String :=
  "updatedAt" ::
    ((if (alookup kvs "title").isSome then ["title"] else []) ++
     (if (alookup kvs "description").isSome then ["description"] else []))

/-- C2: the write only touches the named update fields; the stored record
under the same id keeps its id and every field outside the update names,
and records under every other id are untouched. -/
theorem C2_write_frame (parse : String → Option Json) (now : String)
    (st : Store) (event : Event) (rid : String) (kvs : List (String × Json))
    (item : Record)
    (hrid : alookup (event.pathParameters.getD []) "resourceId" = some rid)
    (hne : rid ≠ "")
    (hp : parse (event.body.getD "\x7b\x7d") = some (Json.obj kvs))
    (hkvs : kvs ≠ [])
    (hread : st.readFail = none)
    (hitem : alookup st.items rid = some item)
    (hwrite : st.writeFail = none) :
    ∃ newItem : Record,
      alookup ((handler parse now st event).2.1).items rid = some newItem ∧
      alookup newItem "id" = alookup item "id" ∧
      (∀ f, ¬ f ∈ updNames kvs → alookup newItem f = alookup item f) ∧
      (∀ rid2, rid2 ≠ rid →
        alookup ((handler parse now st event).2.1).items rid2 = alookup st.items rid2) := by
  obtain ⟨hu, htl, hd, hframe⟩ := alookup_applyUpdates_updList item kvs now
  have hs := handler_success parse now st event rid kvs item hrid hne hp hkvs hread hitem hwrite
  refine ⟨applyUpdates item (updList kvs now), ?_, ?_, ?_, ?_⟩
  · rw [hs]
    exact alookup_aset_self st.items rid _
  · exact hframe "id" (by decide) (by decide) (by decide)
  · intro f hf
    have hfu : f ≠ "updatedAt" := fun e => hf (by simp [updNames, e])
    by_cases hft : f = "title"
    · subst hft
      rcases h1 : alookup kvs "title" with _ | v
      · rw [htl, h1]
      · exact absurd (by simp [updNames, h1]) hf
    · by_cases hfd : f = "description"
      · subst hfd
        rcases h2 : alookup kvs "description" with _ | v
        · rw [hd, h2]
        · exact absurd (by simp [updNames, h2]) hf
      · exact hframe f hfu hft hfd
  · intro rid2 hne2
    rw [hs]
    exact alookup_aset_ne st.items rid rid2 _ hne2

/-- C2 witness: the title update on r1 leaves id, description, owner and
the rest of the store unchanged. -/
theorem C2_witness :
    ∃ newItem : Record,
      alookup ((handler exParse exNow exStore exEvent).2.1).items "r1" = some newItem ∧
      alookup newItem "id" = alookup exItem "id" ∧
      (∀ f, ¬ f ∈ updNames [("title", Json.str "B")] →
        alookup newItem f = alookup exItem f) ∧
      (∀ rid2, rid2 ≠ "r1" →
        alookup ((handler exParse exNow exStore exEvent).2.1).items rid2 =
          alookup exStore.items rid2) :=
  C2_write_frame exParse exNow exStore exEvent "r1" [("title", Json.str "B")]
    exItem rfl (by decide) rfl (by simp) rfl rfl rfl

end UpdateResource

namespace UpdateResource

/-- A parse function for a body holding only an unrecognized key. -/
def exParseFoo : String → Option Json :=
  fun s => if s = "bodyFoo" then some (Json.obj [("foo", Json.str "bar")]) else none

/-- An event naming r1 and carrying the unrecognized-key body. -/
def exEventFoo : Event := ⟨some [("resourceId", "r1")], some "bodyFoo"⟩

/-- C8: a non-empty object body with only unrecognized keys against an
existing record yields 200; the written record changes only updatedAt, so
no unrecognized key is stored and title and description keep their stored
values. -/
theorem C8_unrecognized_keys (parse : String → Option Json) (now : String)
    (st : Store) (event : Event) (rid : String) (kvs : List (String × Json))
    (item : Record)
    (hrid : alookup (event.pathParameters.getD []) "resourceId" = some rid)
    (hne : rid ≠ "")
    (hp : parse (event.body.getD "\x7b\x7d") = some (Json.obj kvs))
    (hkvs : kvs ≠ [])
    (htitle : alookup kvs "title" = none)
    (hdesc : alookup kvs "description" = none)
    (hread : st.readFail = none)
    (hitem : alookup st.items rid = some item)
    (hwrite : st.writeFail = none) :
    (handler parse now st event).1.statusCode = 200 ∧
    ∃ newItem : Record,
      (handler parse now st event).1 = resp200 newItem ∧
      alookup ((handler parse now st event).2.1).items rid = some newItem ∧
      alookup newItem "updatedAt" = some (Json.str now) ∧
      (∀ f, f ≠ "updatedAt" → alookup newItem f = alookup item f) := by
  have hs := handler_success parse now st event rid kvs item hrid hne hp hkvs hread hitem hwrite
  have hul : updList kvs now = [("updatedAt", Json.str now)] := by
    simp [updList, titleUpd, descUpd, htitle, hdesc]
  refine ⟨by rw [hs]; rfl, applyUpdates item (updList kvs now),
          by rw [hs], by rw [hs]; exact alookup_aset_self st.items rid _, ?_, ?_⟩
  · rw [hul]
    exact alookup_aset_self item "updatedAt" (Json.str now)
  · intro f hf
    rw [hul]
    exact alookup_aset_ne item "updatedAt" f (Json.str now) hf

/-- C8 witness: the foo-only body against the stored r1 record. -/
theorem C8_witness :
    (handler exParseFoo exNow exStore exEventFoo).1.statusCode = 200 ∧
    ∃ newItem : Record,
      (handler exParseFoo exNow exStore exEventFoo).1 = resp200 newItem ∧
      alookup ((handler exParseFoo exNow exStore exEventFoo).2.1).items "r1" =
        some newItem ∧
      alookup newItem "updatedAt" = some (Json.str exNow) ∧
      (∀ f, f ≠ "updatedAt" → alookup newItem f = alookup exItem f) :=
  C8_unrecognized_keys exParseFoo exNow exStore exEventFoo "r1"
    [("foo", Json.str "bar")] exItem rfl (by decide) rfl (by simp)
    rfl rfl rfl rfl rfl

/-- C9: running the handler twice with the same body against the same
record leaves the same title and description in the response and the store
after each call; only updatedAt can differ between the two calls. -/
theorem C9_idempotent (parse : String → Option Json) (now now2 : String)
    (st : Store) (event : Event) (rid : String) (kvs : List (String × Json))
    (item : Record)
    (hrid : alookup (event.pathParameters.getD []) "resourceId" = some rid)
    (hne : rid ≠ "")
    (hp : parse (event.body.getD "\x7b\x7d") = some (Json.obj kvs))
    (hkvs : kvs ≠ [])
    (hread : st.readFail = none)
    (hitem : alookup st.items rid = some item)
    (hwrite : st.writeFail = none) :
    ∃ r1 r2 : Record,
      (handler parse now st event).1 = resp200 r1 ∧
      alookup ((handler parse now st event).2.1).items rid = some r1 ∧
      (handler parse now2 (handler parse now st event).2.1 event).1 = resp200 r2 ∧
      alookup ((handler parse now2 (handler parse now st event).2.1 event).2.1).items rid
        = some r2 ∧
      alookup r2 "title" = alookup r1 "title" ∧
      alookup r2 "description" = alookup r1 "description" := by
  have hs1 := handler_success parse now st event rid kvs item hrid hne hp hkvs hread hitem hwrite
  have hitem1 : alookup (aset st.items rid (applyUpdates item (updList kvs now))) rid
      = some (applyUpdates item (updList kvs now)) :=
    alookup_aset_self st.items rid _
  have hs2 := handler_success parse now2
    { st with items := aset st.items rid (applyUpdates item (updList kvs now)) }
    event rid kvs (applyUpdates item (updList kvs now)) hrid hne hp hkvs hread hitem1 hwrite
  obtain ⟨_, htl1, hd1, _⟩ := alookup_applyUpdates_updList item kvs now
  obtain ⟨_, htl2, hd2, _⟩ :=
    alookup_applyUpdates_updList (applyUpdates item (updList kvs now)) kvs now2
  refine ⟨applyUpdates item (updList kvs now),
          applyUpdates (applyUpdates item (updList kvs now)) (updList kvs now2),
          by rw [hs1], by rw [hs1]; exact hitem1, ?_, ?_, ?_, ?_⟩
  · rw [hs1]
    exact congrArg Prod.fst hs2
  · rw [hs1]
    rw [show (handler parse now2
        { st with items := aset st.items rid (applyUpdates item (updList kvs now)) }
        event).2.1.items =
      aset (aset st.items rid (applyUpdates item (updList kvs now))) rid
        (applyUpdates (applyUpdates item (updList kvs now)) (updList kvs now2)) from
      by rw [hs2]]
    exact alookup_aset_self _ rid _
  · rcases h1 : alookup kvs "title" with _ | v
    · rw [htl2, htl1, h1]
    · rw [htl2, htl1, h1]
  · rcases h2 : alookup kvs "description" with _ | v
    · rw [hd2, hd1, h2]
    · rw [hd2, hd1, h2]

/-- C9 witness: the same title update applied twice to r1. -/
theorem C9_witness :
    ∃ r1 r2 : Record,
      (handler exParse exNow exStore exEvent).1 = resp200 r1 ∧
      alookup ((handler exParse exNow exStore exEvent).2.1).items "r1" = some r1 ∧
      (handler exParse "2026-01-03T00:00:00.000000Z"
        (handler exParse exNow exStore exEvent).2.1 exEvent).1 = resp200 r2 ∧
      alookup ((handler exParse "2026-01-03T00:00:00.000000Z"
        (handler exParse exNow exStore exEvent).2.1 exEvent).2.1).items "r1" = some r2 ∧
      alookup r2 "title" = alookup r1 "title" ∧
      alookup r2 "description" = alookup r1 "description" :=
  C9_idempotent exParse exNow "2026-01-03T00:00:00.000000Z" exStore exEvent "r1"
    [("title", Json.str "B")] exItem rfl (by decide) rfl (by simp) rfl rfl rfl

end UpdateResource

namespace UpdateResource

lemma runTry_shape (now : String) (st : Store) (rid : String) (body : Json) :
    runTry now st rid body = (.ok (resp404 rid), st, ⟨1, 0⟩) ∨
    (∃ it : Record, ∃ st2 : Store,
      runTry now st rid body = (.ok (resp200 it), st2, ⟨1, 1⟩)) ∨
    (∃ e : PyErr, ∃ ops : Ops, runTry now st rid body = (.error e, st, ops)) := by
  unfold runTry
  rcases hrf : st.readFail with _ | cm
  · rcases hit : alookup st.items rid with _ | item
    · left
      rfl
    · rcases hbu : buildUpdates body now with e | upds
      · right; right
        exact ⟨e, ⟨1, 0⟩, rfl⟩
      · rcases hwf : st.writeFail with _ | cm2
        · right; left
          exact ⟨_, _, rfl⟩
        · right; right
          exact ⟨_, ⟨1, 1⟩, rfl⟩
  · right; right
    exact ⟨_, ⟨1, 0⟩, rfl⟩

lemma handler_shapes (parse : String → Option Json) (now : String) (st : Store)
    (event : Event) :
    (handler parse now st event).1 = resp400 "Missing resourceId in path" ∨
    (handler parse now st event).1 = resp400 "Invalid JSON in request body" ∨
    (handler parse now st event).1 = resp400 "Request body cannot be empty" ∨
    (∃ rid, (handler parse now st event).1 = resp404 rid) ∨
    (∃ it : Record, (handler parse now st event).1 = resp200 it) ∨
    (∃ msg, (handler parse now st event).1 = resp500Store msg) ∨
    (∃ msg, (handler parse now st event).1 = resp500Other msg) := by
  rcases hrid : alookup (event.pathParameters.getD []) "resourceId" with _ | rid
  · rw [handler_resourceId_missing parse now st event hrid]
    left
    rfl
  · by_cases hne : rid = ""
    · subst hne
      rw [handler_resourceId_empty parse now st event hrid]
      left
      rfl
    · rcases hp : parse (event.body.getD "\x7b\x7d") with _ | body
      · rw [handler_bad_json parse now st event rid hrid hne hp]
        right; left
        rfl
      · by_cases ht : Json.truthy body = false
        · rw [handler_empty_body parse now st event rid body hrid hne hp ht]
          right; right; left
          rfl
        · have ht2 : Json.truthy body = true := by
            cases hb : Json.truthy body
            · exact absurd hb ht
            · rfl
          rw [handler_main parse now st event rid body hrid hne hp ht2]
          rcases runTry_shape now st rid body with h | ⟨it, st2, h⟩ | ⟨e, ops, h⟩
          · rw [h]
            right; right; right; left
            exact ⟨rid, rfl⟩
          · rw [h]
            right; right; right; right; left
            exact ⟨it, rfl⟩
          · rcases e with ⟨code, msg⟩ | m | k <;> rw [h]
            · right; right; right; right; right; left
              exact ⟨msg, rfl⟩
            · right; right; right; right; right; right
              exact ⟨pyErrStr (.typeError m), rfl⟩
            · right; right; right; right; right; right
              exact ⟨pyErrStr (.keyError k), rfl⟩

/-- C6: for every event and every store behaviour the handler returns a
structured response: the status is one of 200, 400, 404, 500 and the
response is exactly one of the specified shapes (missing-id 400, bad-JSON
400, empty-body 400, interpolated 404, full-record 200, store-error 500,
unexpected-error 500); no exception escapes. -/
theorem C6_always_structured (parse : String → Option Json) (now : String)
    (st : Store) (event : Event) :
    ((handler parse now st event).1.statusCode = 200 ∨
     (handler parse now st event).1.statusCode = 400 ∨
     (handler parse now st event).1.statusCode = 404 ∨
     (handler parse now st event).1.statusCode = 500) ∧
    ((handler parse now st event).1 = resp400 "Missing resourceId in path" ∨
     (handler parse now st event).1 = resp400 "Invalid JSON in request body" ∨
     (handler parse now st event).1 = resp400 "Request body cannot be empty" ∨
     (∃ rid, (handler parse now st event).1 = resp404 rid) ∨
     (∃ it : Record, (handler parse now st event).1 = resp200 it) ∨
     (∃ msg, (handler parse now st event).1 = resp500Store msg) ∨
     (∃ msg, (handler parse now st event).1 = resp500Other msg)) := by
  have h := handler_shapes parse now st event
  refine ⟨?_, h⟩
  rcases h with h | h | h | ⟨rid, h⟩ | ⟨it, h⟩ | ⟨m, h⟩ | ⟨m, h⟩ <;> rw [h] <;>
    simp [resp400, resp404, resp200, resp500Store, resp500Other]

/-- A parse function for a body parsing to a non-empty JSON array. -/
def exParseArr : String → Option Json :=
  fun s => if s = "bodyArr" then some (Json.arr [Json.num 1]) else none

/-- An event naming r1 and carrying the array body. -/
def exEventArr : Event := ⟨some [("resourceId", "r1")], some "bodyArr"⟩

/-- C7 counterexample: with the r1 record present and a non-empty object
body holding neither title nor description, the handler still issues a
write, refuting the claim that no write is issued when the body has zero
updatable fields. -/
theorem C7_counterexample :
    alookup exStore.items "r1" = some exItem ∧
    exParseFoo "bodyFoo" = some (Json.obj [("foo", Json.str "bar")]) ∧
    (handler exParseFoo exNow exStore exEventFoo).2.2.writes = 1 ∧
    ¬ ((handler exParseFoo exNow exStore exEventFoo).2.2.writes = 0) := by
  have h1 : (handler exParseFoo exNow exStore exEventFoo).2.2.writes = 1 := rfl
  exact ⟨rfl, rfl, h1, by rw [h1]; decide⟩

/-- C7 amended: no write is issued when the record does not exist; when the
record exists and the non-empty body has zero updatable fields, exactly one
write is still issued (setting only updatedAt, see the C8 theorem). -/
theorem C7_amended_write_discipline :
    (∀ (parse : String → Option Json) (now : String) (st : Store) (event : Event)
       (rid : String) (body : Json),
      alookup (event.pathParameters.getD []) "resourceId" = some rid →
      rid ≠ "" →
      parse (event.body.getD "\x7b\x7d") = some body →
      Json.truthy body = true →
      st.readFail = none →
      alookup st.items rid = none →
      (handler parse now st event).2.2.writes = 0) ∧
    (∀ (parse : String → Option Json) (now : String) (st : Store) (event : Event)
       (rid : String) (kvs : List (String × Json)) (item : Record),
      alookup (event.pathParameters.getD []) "resourceId" = some rid →
      rid ≠ "" →
      parse (event.body.getD "\x7b\x7d") = some (Json.obj kvs) →
      kvs ≠ [] →
      alookup kvs "title" = none →
      alookup kvs "description" = none →
      st.readFail = none →
      alookup st.items rid = some item →
      st.writeFail = none →
      (handler parse now st event).2.2.writes = 1) := by
  constructor
  · intro parse now st event rid body hrid hne hp ht hread hmiss
    rw [handler_main parse now st event rid body hrid hne hp ht,
        runTry_notfound now st rid body hread hmiss]
  · intro parse now st event rid kvs item hrid hne hp hkvs _ _ hread hitem hwrite
    rw [handler_success parse now st event rid kvs item hrid hne hp hkvs hread hitem hwrite]

/-- C7 amended witness: a missing id yields no write; the foo-only body
against the existing r1 record yields one write. -/
theorem C7_amended_witness :
    (handler exParseFoo exNow ⟨[], none, none⟩ exEventFoo).2.2.writes = 0 ∧
    (handler exParseFoo exNow exStore exEventFoo).2.2.writes = 1 :=
  ⟨C7_amended_write_discipline.1 exParseFoo exNow ⟨[], none, none⟩ exEventFoo "r1"
      (Json.obj [("foo", Json.str "bar")]) rfl (by decide) rfl rfl rfl rfl,
   C7_amended_write_discipline.2 exParseFoo exNow exStore exEventFoo "r1"
      [("foo", Json.str "bar")] exItem rfl (by decide) rfl (by simp) rfl rfl rfl rfl rfl⟩

/-- C10: a request whose body parses to the non-empty JSON array [1] is not
rejected by validation: against the stored r1 record the handler performs
the read and returns 200, and the written record differs from the stored
one only in updatedAt. -/
theorem C10_non_object_body :
    (handler exParseArr exNow exStore exEventArr).1.statusCode = 200 ∧
    (handler exParseArr exNow exStore exEventArr).1.statusCode ≠ 400 ∧
    (handler exParseArr exNow exStore exEventArr).2.2.reads = 1 ∧
    (handler exParseArr exNow exStore exEventArr).1 =
      resp200 [("id", Json.str "r1"), ("title", Json.str "A"),
               ("description", Json.str "d"), ("owner", Json.str "o9"),
               ("updatedAt", Json.str exNow)] ∧
    alookup ((handler exParseArr exNow exStore exEventArr).2.1).items "r1" =
      some [("id", Json.str "r1"), ("title", Json.str "A"),
            ("description", Json.str "d"), ("owner", Json.str "o9"),
            ("updatedAt", Json.str exNow)] := by
  refine ⟨rfl, by decide, rfl, rfl, rfl⟩

end UpdateResource
